import Mathlib

/-!
Verification of the node-box-sdk client library (src/lib/box-sdk.js and the
folders resource file) against its natural-language specification.

The JavaScript code is shallowly embedded: JavaScript runtime values that the
validation logic inspects are modelled by the inductive `JSVal`; each resource
method becomes a Lean function from its arguments to an `Outcome` (either a
synchronous validation-error callback or a dispatched request descriptor);
the Box client object becomes an explicit state record threaded through the
operations.  Asynchronous callbacks are modelled by returning the list of
callback invocations an operation performs.
-/

namespace BoxSDK

/-- Shallow model of the JavaScript values the SDK validation logic inspects.
`vnan` is the number-typed value NaN, kept separate from `vnum` because
`parseInt` produces it and lodash `_.isNumber` still accepts it. -/
inductive JSVal where
  | vnum (n : Int)
  | vnan
  | vstr (s : String)
  | vbool (b : Bool)
  | vnull
  | vundef
  | vobj
  deriving DecidableEq, Repr

namespace JSVal

/-- Model of lodash `_.isNumber`: true exactly on number-typed values,
including NaN (in JavaScript, typeof NaN is number). -/
def isNumber : JSVal → Bool
  | vnum _ => true
  | vnan => true
  | _ => false

/-- Model of lodash `_.isString`. -/
def isString : JSVal → Bool
  | vstr _ => true
  | _ => false

/-- Model of lodash `_.isObject`: objects (and functions/arrays); null and
primitives are not objects. -/
def isObject : JSVal → Bool
  | vobj => true
  | _ => false

/-- Model of JavaScript truthiness, used by guards such as
`if (!opts.client_id)` and `opts.host || localhost`. -/
def truthy : JSVal → Bool
  | vnum n => n != 0
  | vnan => false
  | vstr s => s ≠ ""
  | vbool b => b
  | vnull => false
  | vundef => false
  | vobj => true

end JSVal

/-- Numeric value of a list of decimal digit characters. -/
def digitsToNat (ds : List Char) : Nat :=
  ds.foldl (fun a c => a * 10 + (c.toNat - 48)) 0

/-- Model of JavaScript `parseInt(x, 10)` on a string: an optional sign
followed by a maximal run of decimal digits; NaN when no digit is found. -/
def parseIntStr (s : String) : JSVal :=
  let step : Int → List Char → JSVal := fun sign cs =>
    let ds := cs.takeWhile Char.isDigit
    if ds.isEmpty then JSVal.vnan else JSVal.vnum (sign * (digitsToNat ds : Int))
  match s.data with
  | '-' :: t => step (-1) t
  | '+' :: t => step 1 t
  | cs => step 1 cs

/-- Model of JavaScript `parseInt(x, 10)`: numbers pass through (already
integral in this model), strings are parsed, and every other value —
including undefined — yields NaN. -/
def parseIntJS : JSVal → JSVal
  | JSVal.vnum n => JSVal.vnum n
  | JSVal.vstr s => parseIntStr s
  | _ => JSVal.vnan

open JSVal

/-- Result of invoking a resource method: either the method returned
synchronously via `done(new Error(msg))` without dispatching anything, or it
dispatched a request through `Connection.request` with the given path
segments, HTTP verb, query options and body.  Object literals built by the
methods are abridged to `vobj`; the claims only inspect validation, path and
verb. -/
inductive Outcome where
  | validationError (msg : String)
  | dispatch (path : List JSVal) (verb : String) (query : JSVal) (body : JSVal)
  deriving DecidableEq, Repr

/-! Resource methods of the folders file, translated one-to-one.  Each `done`
callback and `headers` argument is pass-through and does not affect which
branch is taken, so they are omitted from the embedding. -/

/-- Translation of `getFolderInfo(id, done, headers)`. -/
def getFolderInfo (id : JSVal) : Outcome :=
  if !isNumber id then .validationError "id must be specified."
  else .dispatch [vstr "folders", id] "get" vnull vnull

/-- Translation of `getFolderItems(id, opts, done, headers)`. -/
def getFolderItems (id opts : JSVal) : Outcome :=
  if !isNumber id then .validationError "id must be specified."
  else .dispatch [vstr "folders", id, vstr "items"] "get" opts vnull

/-- Translation of `createFolder(name, parent_id, done, headers)`. -/
def createFolder (name parent_id : JSVal) : Outcome :=
  if !isString name || !isNumber parent_id then
    .validationError "Invalid params. Required - name: string, parent_id: number"
  else .dispatch [vstr "folders"] "post" vnull vobj

/-- Translation of `updateFolder(id, fields, done, headers)`. -/
def updateFolder (id fields : JSVal) : Outcome :=
  if !isNumber id then .validationError "id must be specified."
  else if !isObject fields then .validationError "An fields object must be provided."
  else .dispatch [vstr "folders", id] "put" vnull fields

/-- Translation of `deleteFolder(id, opts, done, headers)`. -/
def deleteFolder (id opts : JSVal) : Outcome :=
  if !isNumber id then .validationError "id must be specified."
  else .dispatch [vstr "folders", id] "delete" opts vnull

/-- Translation of `copyFolder(id, parent_id, name, done, headers)`. -/
def copyFolder (id parent_id name : JSVal) : Outcome :=
  if !isNumber id || !isNumber parent_id then
    .validationError "Invalid params. Required - id: number, parent_id: number"
  else .dispatch [vstr "folders", id, vstr "copy"] "post" vnull vobj

/-- Translation of `folderSharedLink(id, opts, done, headers)`. -/
def folderSharedLink (id opts : JSVal) : Outcome :=
  if !isNumber id then .validationError "id must be specified."
  else .dispatch [vstr "folders", id] "put" vnull vobj

/-- Translation of `getFolderCollaborations(id, done, headers)`. -/
def getFolderCollaborations (id : JSVal) : Outcome :=
  if !isNumber id then .validationError "id must be specified."
  else .dispatch [vstr "folders", id, vstr "collaborations"] "get" vnull vnull

/-- Translation of `getTrashedItems(opts, done, headers)` (no id parameter,
no validation). -/
def getTrashedItems (opts : JSVal) : Outcome :=
  .dispatch [vstr "folders", vstr "trash", vstr "items"] "get" opts vnull

/-- Translation of `getTrashedFolder(id, done, headers)`. -/
def getTrashedFolder (id : JSVal) : Outcome :=
  if !isNumber id then .validationError "id must be specified."
  else .dispatch [vstr "folders", id, vstr "trash"] "get" vnull vnull

/-- Translation of `deleteTrashedFolder(id, done, headers)`. -/
def deleteTrashedFolder (id : JSVal) : Outcome :=
  if !isNumber id then .validationError "id must be specified."
  else .dispatch [vstr "folders", id, vstr "trash"] "delete" vnull vnull

/-- Translation of `restoreTrashedFolder(id, name, parent_id, done, headers)`.
Note the source checks `name` and `parent_id` but never checks `id`. -/
def restoreTrashedFolder (id name parent_id : JSVal) : Outcome :=
  if !isString name || !isNumber parent_id then
    .validationError "Invalid params. Required - name: string, parent_id: number"
  else .dispatch [vstr "folders", id] "post" vnull vobj

/-! Box client object (src/lib/box-sdk.js). -/

/-- Connection instance bound to one account.  The constructor lives in
connector.js, which is not part of the sources; per the specification an
AccountSession starts with no tokens (state UNSET).  `connId` models
JavaScript object identity: each `new Connection(...)` allocates a fresh one. -/
structure Connection where
  connId : Nat
  email : String
  access_token : Option String
  refresh_token : Option String
  deriving DecidableEq, Repr

/-- Options object passed to the Box constructor (`BoxInit`); absent
properties are `vundef`. -/
structure Opts where
  client_id : JSVal
  client_secret : JSVal
  port : JSVal
  host : JSVal
  refresh_token : JSVal
  deriving DecidableEq, Repr

/-- Form posted to the token endpoint by `init` (the `tokenParams` object). -/
structure TokenRequest where
  url : String
  client_id : JSVal
  client_secret : JSVal
  grant_type : String
  refresh_token : JSVal
  deriving DecidableEq, Repr

/-- State of a Box client instance: the connection registry (a JavaScript
object keyed by email, modelled as an association list), a counter supplying
fresh connection identities, and the fields set by `init` in standalone mode. -/
structure Box where
  connections : List (String × Connection)
  nextId : Nat
  port : Option JSVal
  host : Option JSVal
  client_id : Option JSVal
  client_secret : Option JSVal
  refresh_token : Option JSVal
  deriving DecidableEq, Repr

/-- Result of constructing a Box: the instance state, and the token-endpoint
POST issued during `init`, if any. -/
structure InitResult where
  box : Box
  tokenRequest : Option TokenRequest
  deriving DecidableEq, Repr

/-- Translation of `init(opts, logLevel, logStream)` in box-sdk.js.  Throwing
`new Error(...)` is modelled by `Except.error`.  When `opts` is present the
code validates client_id, client_secret and port, then unconditionally issues
`request.post` to the token endpoint with grant_type refresh_token — there is
no guard on `opts.refresh_token` being present. -/
def Box.init (opts : Option Opts) : Except String InitResult :=
  let base : Box := ⟨[], 0, none, none, none, none, none⟩
  match opts with
  | none => .ok ⟨base, none⟩
  | some o =>
    if !truthy o.client_id then .error "Must specify a client_id"
    else if !truthy o.client_secret then .error "Must specify a client_secret"
    else
      let port := parseIntJS o.port
      if !isNumber port then .error "Must specify a numeric port"
      else
        let host := if truthy o.host then o.host else vstr "localhost"
        .ok ⟨{ base with
                port := some port, host := some host,
                client_id := some o.client_id, client_secret := some o.client_secret,
                refresh_token := some o.refresh_token },
             some ⟨"https://app.box.com/api/oauth2/token",
                   o.client_id, o.client_secret, "refresh_token", o.refresh_token⟩⟩

/-- Translation of `getConnection(email)`: return the registered connection
when one exists, otherwise construct a new `Connection(this, email)`, store it
under `email` and return it. -/
def Box.getConnection (b : Box) (email : String) : Connection × Box :=
  match b.connections.lookup email with
  | some c => (c, b)
  | none =>
    let c : Connection := ⟨b.nextId, email, none, none⟩
    (c, { b with connections := (email, c) :: b.connections, nextId := b.nextId + 1 })

/-- Body of a successful token-endpoint response. -/
structure TokenBody where
  access_token : String
  refresh_token : String
  deriving DecidableEq, Repr

/-- Modelled from the spec: `Connection._setTokens` lives in connector.js,
which is not part of the sources.  Per §4.2 of the specification a successful
exchange stores the access token and refresh token on the account session.
The JavaScript connection object is the value held by the registry, so the
embedding updates the registry entry in place. -/
def Box.setTokens (b : Box) (email : String) (t : TokenBody) : Box :=
  { b with connections := b.connections.map fun p =>
      bif p.1 == email then
        (p.1, { p.2 with access_token := some t.access_token,
                         refresh_token := some t.refresh_token })
      else p }

/-- Event observed on a connection when the startup token exchange resolves. -/
inductive DeliveryEvent where
  | tokensError (e : String)
  | tokensSet (t : TokenBody)
  deriving DecidableEq, Repr

/-- Translation of the response handler of the `request.post` in `init`
(box-sdk.js lines 97-113): on error it calls
`self.connections[ehgt].emit(tokens.error, err)`, otherwise
`self.connections[ehgt]._setTokens(body)` — the key "ehgt" is hard-coded.
When no connection is registered under "ehgt" the JavaScript lookup yields
`undefined` and the method call throws an uncaught TypeError, modelled by
`none`. -/
def tokenRefreshHandler (b : Box) (outcome : Except String TokenBody) :
    Option (Box × DeliveryEvent) :=
  match b.connections.lookup "ehgt" with
  | none => none
  | some _ =>
    match outcome with
    | .error e => some (b, .tokensError e)
    | .ok body => some (b.setTokens "ehgt" body, .tokensSet body)

/-- Passport profile; only `login` is read by the middleware, `payload`
stands for the remaining profile fields passed through to `done`. -/
structure Profile where
  login : String
  payload : Nat
  deriving DecidableEq, Repr

/-- Translation of the middleware closure returned by `authenticate()`:
`getConnection(profile.login)`, then `_setTokens` with the two tokens, then
`done(null, profile)`.  The second component lists the invocations of `done`
(error argument, profile argument). -/
def authenticateCb (b : Box) (atk rtk : String) (profile : Profile) :
    Box × List (Option String × Profile) :=
  let r := b.getConnection profile.login
  let b2 := r.2.setTokens profile.login ⟨atk, rtk⟩
  (b2, [(none, profile)])

/-! Authorization listener shutdown (`stopServer`). -/

/-- Socket tracked by the listener; `sockOpen` is false once destroyed. -/
structure Socket where
  sid : Nat
  sockOpen : Bool
  deriving DecidableEq, Repr

/-- Listener state of a Box client: `server` is `some listening` when an HTTP
server object has been assigned, `none` when it was never started. -/
structure ListenerState where
  server : Option Bool
  sockets : List Socket
  deriving DecidableEq, Repr

/-- Observable event during `stopServer`. -/
inductive StopEvent where
  | closedServer
  | destroyedSocket (sid : Nat)
  | calledBack (e : Option String)
  deriving DecidableEq, Repr

/-- Translation of `stopServer(callback)`: when `this.server` is set, close
the server, destroy every tracked socket, then invoke `callback()`; when it
is not set, the body is skipped entirely and the callback is never invoked.
`close` and `destroy` are modelled as total state transitions, so the catch
branch that would pass an error to the callback is unreachable in the
embedding. -/
def stopServer (st : ListenerState) : ListenerState × List StopEvent :=
  match st.server with
  | none => (st, [])
  | some _ =>
    (⟨some false, st.sockets.map fun s => ⟨s.sid, false⟩⟩,
     StopEvent.closedServer ::
       (st.sockets.map fun s => StopEvent.destroyedSocket s.sid) ++
       [StopEvent.calledBack none])

/-! Account session readiness (connector.js is not part of the sources; the
definitions below are modelled from §4.2 and §4.3 of the specification). -/

/-- Token state of an account session (§4.2). -/
inductive TokenState where
  | unset
  | pending
  | ready
  | error
  deriving DecidableEq, Repr

/-- Modelled from the spec: the per-connection token store of connector.js.
Waiters registered through `ready` are identified by a number standing for
the callback object. -/
structure AccountSession where
  tstate : TokenState
  waiters : List Nat
  deriving DecidableEq, Repr

/-- Notification delivered to a waiter: its identity and the error argument
(none on READY). -/
abbrev Notification := Nat × Option String

/-- Modelled from the spec: `ready(callback)` of connector.js (§4.2) —
invoke the callback immediately when the state is READY, otherwise register
it as a one-shot listener for the next terminal transition. -/
def ready (w : Nat) (s : AccountSession) : AccountSession × List Notification :=
  if s.tstate = .ready then (s, [(w, none)])
  else ({ s with waiters := s.waiters ++ [w] }, [])

/-- Modelled from the spec: the terminal transition of a token exchange
(§4.2) — PENDING moves to READY on success or ERROR on failure, every
registered waiter is notified exactly once (with the error on ERROR), and the
waiter list is cleared so later refreshes do not re-notify. -/
def completeExchange (res : Option String) (s : AccountSession) :
    AccountSession × List Notification :=
  (⟨if res = none then .ready else .error, []⟩, s.waiters.map fun w => (w, res))

/-- Configuration consumed by auth-URL generation. -/
structure AuthConfig where
  client_id : String
  host : String
  port : Nat
  deriving DecidableEq, Repr

/-- Modelled from the spec: `getAuthURL()` of connector.js (§4.3) —
deterministic construction of
authorize_endpoint?response_type=code&client_id=id&redirect_uri=callback,
where the callback URL is served on the configured host and port.  The
session argument is ignored: per the spec the URL is reproducible from the
configuration alone. -/
def getAuthURL (cfg : AuthConfig) (_sess : AccountSession) : String :=
  "https://app.box.com/api/oauth2/authorize?response_type=code&" ++
    ("client_id=" ++ cfg.client_id) ++
    ("&" ++ ("redirect_uri=http://" ++ cfg.host ++ ":" ++ toString cfg.port) ++
      "/authorize")

/-- Substring containment on strings, phrased by explicit decomposition. -/
def strContains (s sub : String) : Prop :=
  ∃ p q, s = p ++ sub ++ q

/-! Helper lemmas. -/

/-- Lookup after `getConnection` finds a registered connection. -/
theorem getConnection_of_lookup_some (b : Box) (email : String) (c : Connection)
    (h : b.connections.lookup email = some c) : b.getConnection email = (c, b) := by
  unfold Box.getConnection
  rw [h]

/-- Shape of `getConnection` when no connection is registered. -/
theorem getConnection_of_lookup_none (b : Box) (email : String)
    (h : b.connections.lookup email = none) :
    b.getConnection email =
      (⟨b.nextId, email, none, none⟩,
       { b with connections := (email, ⟨b.nextId, email, none, none⟩) :: b.connections,
                nextId := b.nextId + 1 }) := by
  unfold Box.getConnection
  rw [h]

/-- Lookup commutes with the per-entry token update performed by
`Box.setTokens`. -/
theorem lookup_setTokens (l : List (String × Connection)) (email : String) (t : TokenBody) :
    (l.map fun p =>
        bif p.1 == email then
          (p.1, { p.2 with access_token := some t.access_token,
                           refresh_token := some t.refresh_token })
        else p).lookup email
      = (l.lookup email).map fun c =>
          { c with access_token := some t.access_token,
                   refresh_token := some t.refresh_token } := by
  induction l with
  | nil => rfl
  | cons hd tl ih =>
    obtain ⟨k, v⟩ := hd
    by_cases hk : k = email
    · subst hk
      simp only [List.map_cons, beq_self_eq_true, cond_true, List.lookup]
      rfl
    · have hb : (k == email) = false := beq_eq_false_iff_ne.mpr hk
      have hb2 : (email == k) = false := beq_eq_false_iff_ne.mpr (Ne.symm hk)
      simp only [List.map_cons, hb, cond_false, List.lookup, hb2]
      exact ih

/-! Claim theorems. -/

/-- C1: of the ten numeric-id resource methods, nine reject a non-numeric id
synchronously with a validation error and no request, but
`restoreTrashedFolder` never validates its id: with a non-numeric id (and
well-typed name and parent_id) it dispatches a request through
`Connection.request`, contradicting the claim. -/
theorem restoreTrashedFolder_missing_id_check :
    getFolderInfo (vstr "x") = .validationError "id must be specified." ∧
    getFolderItems (vstr "x") vnull = .validationError "id must be specified." ∧
    updateFolder (vstr "x") vobj = .validationError "id must be specified." ∧
    deleteFolder (vstr "x") vnull = .validationError "id must be specified." ∧
    copyFolder (vstr "x") (vnum 1) vnull =
      .validationError "Invalid params. Required - id: number, parent_id: number" ∧
    folderSharedLink (vstr "x") vnull = .validationError "id must be specified." ∧
    getFolderCollaborations (vstr "x") = .validationError "id must be specified." ∧
    getTrashedFolder (vstr "x") = .validationError "id must be specified." ∧
    deleteTrashedFolder (vstr "x") = .validationError "id must be specified." ∧
    restoreTrashedFolder (vstr "x") (vstr "n") (vnum 1) =
      .dispatch [vstr "folders", vstr "x"] "post" vnull vobj := by
  decide

/-- C2: `getConnection` is an idempotent lookup-or-create: a second call with
the same identifier returns the identical connection and leaves the state
unchanged, the returned connection is bound to the identifier, and when a
connection is already registered the first call mutates nothing. -/
theorem getConnection_lookup_or_create (b : Box) (email : String) (c : Connection) :
    ((b.getConnection email).2.getConnection email).1 = (b.getConnection email).1 ∧
    ((b.getConnection email).2.getConnection email).2 = (b.getConnection email).2 ∧
    (b.connections.lookup email = some c → b.getConnection email = (c, b)) ∧
    (b.connections.lookup email = none →
      (b.getConnection email).1.email = email ∧
      (b.getConnection email).2.connections =
        (email, (b.getConnection email).1) :: b.connections) := by
  cases h : b.connections.lookup email with
  | some c0 =>
    have h1 := getConnection_of_lookup_some b email c0 h
    refine ⟨by rw [h1, h1], by rw [h1, h1], ?_, ?_⟩
    · intro hc
      have hcc : c = c0 := (Option.some.inj hc).symm
      rw [hcc]
      exact h1
    · intro hn
      exact Option.noConfusion hn
  | none =>
    have h1 := getConnection_of_lookup_none b email h
    have hl : (b.getConnection email).2.connections.lookup email
        = some (b.getConnection email).1 := by
      rw [h1]
      simp [List.lookup]
    have h2 := getConnection_of_lookup_some
      (b.getConnection email).2 email (b.getConnection email).1 hl
    refine ⟨by rw [h2], by rw [h2], ?_, ?_⟩
    · intro hc
      exact Option.noConfusion hc
    · intro _
      exact ⟨by rw [h1], by rw [h1]⟩

/-- C2 witness: a concrete registry holding one connection. -/
theorem getConnection_lookup_or_create_witness :
    Box.getConnection ⟨[("a", ⟨0, "a", none, none⟩)], 1, none, none, none, none, none⟩ "a"
      = (⟨0, "a", none, none⟩,
         ⟨[("a", ⟨0, "a", none, none⟩)], 1, none, none, none, none, none⟩) :=
  (getConnection_lookup_or_create
    ⟨[("a", ⟨0, "a", none, none⟩)], 1, none, none, none, none, none⟩ "a"
    ⟨0, "a", none, none⟩).2.2.1 (by decide)

/-- C3 counterexample: with no server started, `stopServer` performs no
events at all — in particular the callback is never invoked, so the claimed
no-op success (callback invoked without error) is false. -/
theorem stopServer_neverStarted_counterexample :
    stopServer ⟨none, [⟨0, true⟩]⟩ = (⟨none, [⟨0, true⟩]⟩, []) ∧
    StopEvent.calledBack none ∉ (stopServer ⟨none, [⟨0, true⟩]⟩).2 := by
  decide

/-- C3 (amended): calling `stopServer` on a client whose listener was never
started does nothing: the state is unchanged and the callback is not invoked
at all. -/
theorem stopServer_neverStarted_noop (st : ListenerState) (h : st.server = none) :
    stopServer st = (st, []) := by
  obtain ⟨srv, socks⟩ := st
  cases srv with
  | none => rfl
  | some lb => simp at h

/-- C3 witness. -/
theorem stopServer_neverStarted_noop_witness :
    (⟨none, [⟨0, true⟩]⟩ : ListenerState).server = none ∧
    stopServer ⟨none, [⟨0, true⟩]⟩ = (⟨none, [⟨0, true⟩]⟩, []) :=
  ⟨rfl, stopServer_neverStarted_noop ⟨none, [⟨0, true⟩]⟩ rfl⟩

/-- C4: `stopServer` on a running listener closes the server (the post-state
server handle is no longer listening and the close is the first event, hence
before the callback), destroys every tracked socket (none remains open in the
post-state), invokes the callback exactly once with no error argument, the
callback is the last event (so the close and every socket destroy precede
it), and every tracked socket has a destroy event in the trace. -/
theorem stopServer_running_closes_all (st : ListenerState) (lb : Bool)
    (h : st.server = some lb) :
    (stopServer st).1.server = some false ∧
    (stopServer st).2.head? = some StopEvent.closedServer ∧
    ((stopServer st).1.sockets.all fun s => !s.sockOpen) = true ∧
    (stopServer st).2.getLast? = some (StopEvent.calledBack none) ∧
    (stopServer st).2.count (StopEvent.calledBack none) = 1 ∧
    (st.sockets.all fun s =>
      (stopServer st).2.contains (StopEvent.destroyedSocket s.sid)) = true := by
  obtain ⟨srv, socks⟩ := st
  cases srv with
  | none => simp at h
  | some b0 =>
    refine ⟨rfl, rfl, ?_, ?_, ?_, ?_⟩
    · simp [stopServer, List.all_map, Function.comp]
    · show (StopEvent.closedServer ::
        ((socks.map fun s => StopEvent.destroyedSocket s.sid) ++
          [StopEvent.calledBack none])).getLast? = some (StopEvent.calledBack none)
      rw [← List.cons_append, List.getLast?_concat]
    · show (StopEvent.closedServer ::
        ((socks.map fun s => StopEvent.destroyedSocket s.sid) ++
          [StopEvent.calledBack none])).count (StopEvent.calledBack none) = 1
      rw [← List.cons_append, List.count_append]
      have h0 : (StopEvent.closedServer ::
          (socks.map fun s => StopEvent.destroyedSocket s.sid)).count
            (StopEvent.calledBack none) = 0 := by
        rw [List.count_eq_zero]
        simp
      rw [h0]
      simp
    · rw [List.all_eq_true]
      intro s hs
      have hm : StopEvent.destroyedSocket s.sid ∈ (stopServer ⟨some b0, socks⟩).2 := by
        refine List.mem_cons_of_mem _ (List.mem_append_left _ ?_)
        exact List.mem_map_of_mem _ hs
      simp [hm]

/-- C5 counterexample: a standalone configuration without a refresh_token
(the property is undefined, `vundef`) still issues the startup token-endpoint
POST, with grant_type refresh_token and an undefined refresh_token field —
the claimed "no token-exchange request when refresh_token is absent" is
false. -/
theorem init_posts_without_refresh_token :
    Box.init (some ⟨vstr "a", vstr "b", vnum 9999, vundef, vundef⟩)
      = Except.ok ⟨⟨[], 0, some (vnum 9999), some (vstr "localhost"),
          some (vstr "a"), some (vstr "b"), some vundef⟩,
          some ⟨"https://app.box.com/api/oauth2/token", vstr "a", vstr "b",
                "refresh_token", vundef⟩⟩ := by
  rfl

/-- C5 (amended): a Client constructed in standalone mode performs the
startup refresh-token exchange unconditionally — whenever validation passes,
the token-endpoint POST is issued with grant_type refresh_token, carrying
whatever refresh_token value the configuration supplied (undefined when
absent). -/
theorem init_standalone_always_posts (o : Opts) (r : InitResult)
    (h : Box.init (some o) = Except.ok r) :
    r.tokenRequest = some ⟨"https://app.box.com/api/oauth2/token", o.client_id,
      o.client_secret, "refresh_token", o.refresh_token⟩ := by
  simp only [Box.init] at h
  split at h
  · exact Except.noConfusion h
  · split at h
    · exact Except.noConfusion h
    · split at h
      · exact Except.noConfusion h
      · rw [← Except.ok.inj h]

/-- C5 witness. -/
theorem init_standalone_always_posts_witness :
    Box.init (some ⟨vstr "a", vstr "b", vnum 9999, vundef, vstr "R"⟩)
      = Except.ok ⟨⟨[], 0, some (vnum 9999), some (vstr "localhost"),
          some (vstr "a"), some (vstr "b"), some (vstr "R")⟩,
          some ⟨"https://app.box.com/api/oauth2/token", vstr "a", vstr "b",
                "refresh_token", vstr "R"⟩⟩ ∧
    InitResult.tokenRequest ⟨⟨[], 0, some (vnum 9999), some (vstr "localhost"),
          some (vstr "a"), some (vstr "b"), some (vstr "R")⟩,
          some ⟨"https://app.box.com/api/oauth2/token", vstr "a", vstr "b",
                "refresh_token", vstr "R"⟩⟩
      = some ⟨"https://app.box.com/api/oauth2/token", vstr "a", vstr "b",
              "refresh_token", vstr "R"⟩ :=
  ⟨by rfl, init_standalone_always_posts ⟨vstr "a", vstr "b", vnum 9999, vundef, vstr "R"⟩
    _ (by rfl)⟩

/-- C6: after a standalone construction the connection registry is empty,
yet the startup token-exchange response handler delivers its result to the
hard-coded registry key "ehgt"; the lookup yields undefined and the
subsequent method call raises an uncaught TypeError (modelled by `none`) on
both the success and the error path, instead of delivering the outcome to
the session of the account whose refresh token was used. -/
theorem init_token_delivery_crashes :
    Box.init (some ⟨vstr "a", vstr "b", vnum 9999, vundef, vstr "R"⟩)
      = Except.ok ⟨⟨[], 0, some (vnum 9999), some (vstr "localhost"),
          some (vstr "a"), some (vstr "b"), some (vstr "R")⟩,
          some ⟨"https://app.box.com/api/oauth2/token", vstr "a", vstr "b",
                "refresh_token", vstr "R"⟩⟩ ∧
    tokenRefreshHandler ⟨[], 0, some (vnum 9999), some (vstr "localhost"),
        some (vstr "a"), some (vstr "b"), some (vstr "R")⟩ (.ok ⟨"T1", "R1"⟩) = none ∧
    tokenRefreshHandler ⟨[], 0, some (vnum 9999), some (vstr "localhost"),
        some (vstr "a"), some (vstr "b"), some (vstr "R")⟩ (.error "ECONNRESET") = none :=
  ⟨rfl, rfl, rfl⟩

/-- C7: construction rejects a missing client_id and a missing client_secret,
but accepts a non-numeric port: parseInt yields NaN, lodash isNumber accepts
NaN, and construction succeeds with port NaN instead of failing. -/
theorem init_port_check_ineffective :
    Box.init (some ⟨vundef, vstr "b", vstr "9999", vundef, vundef⟩)
      = Except.error "Must specify a client_id" ∧
    Box.init (some ⟨vstr "a", vundef, vstr "9999", vundef, vundef⟩)
      = Except.error "Must specify a client_secret" ∧
    Box.init (some ⟨vstr "a", vstr "b", vstr "xyz", vundef, vundef⟩)
      = Except.ok ⟨⟨[], 0, some JSVal.vnan, some (vstr "localhost"),
          some (vstr "a"), some (vstr "b"), some vundef⟩,
          some ⟨"https://app.box.com/api/oauth2/token", vstr "a", vstr "b",
                "refresh_token", vundef⟩⟩ :=
  ⟨rfl, rfl, rfl⟩

/-- C8: auth-URL generation is deterministic — independent of the session
state — and its output contains the configured client_id as the client_id
query parameter and a redirect_uri callback URL on the configured host and
port. -/
theorem getAuthURL_deterministic_and_complete (cfg : AuthConfig) (s1 s2 : AccountSession) :
    getAuthURL cfg s1 = getAuthURL cfg s2 ∧
    strContains (getAuthURL cfg s1) ("client_id=" ++ cfg.client_id) ∧
    strContains (getAuthURL cfg s1)
      ("redirect_uri=http://" ++ cfg.host ++ ":" ++ toString cfg.port) := by
  refine ⟨rfl,
    ⟨"https://app.box.com/api/oauth2/authorize?response_type=code&",
     "&" ++ ("redirect_uri=http://" ++ cfg.host ++ ":" ++ toString cfg.port) ++ "/authorize",
     rfl⟩,
    ⟨"https://app.box.com/api/oauth2/authorize?response_type=code&" ++
       ("client_id=" ++ cfg.client_id) ++ "&",
     "/authorize", ?_⟩⟩
  simp [getAuthURL, String.append_assoc]

/-- Projecting the waiter identities back out of a notification list. -/
theorem map_fst_pair (res : Option String) (l : List Nat) :
    List.map (Prod.fst ∘ fun v => (v, res)) l = l := by
  induction l with
  | nil => rfl
  | cons x xs ih => simp [ih]

/-- C9: a callback registered through `ready` before the exchange completes
is not invoked at registration time, is notified exactly once on the terminal
transition (the notification list is exactly the waiter list), the waiter
list is cleared by the transition, and a subsequent terminal transition does
not notify it again. -/
theorem ready_waiter_notified_exactly_once (s : AccountSession) (w : Nat)
    (res res2 : Option String) (h1 : s.tstate ≠ .ready) (h2 : w ∉ s.waiters) :
    (ready w s).2 = [] ∧
    (completeExchange res (ready w s).1).2.map Prod.fst = s.waiters ++ [w] ∧
    ((completeExchange res (ready w s).1).2.map Prod.fst).count w = 1 ∧
    (completeExchange res (ready w s).1).1.waiters = [] ∧
    ((completeExchange res2 (completeExchange res (ready w s).1).1).2.map Prod.fst).count w
      = 0 := by
  have hr : ready w s = ({ s with waiters := s.waiters ++ [w] }, []) := by
    unfold ready
    rw [if_neg h1]
  rw [hr]
  refine ⟨rfl, ?_, ?_, rfl, rfl⟩
  · show ((s.waiters ++ [w]).map fun v => (v, res)).map Prod.fst = s.waiters ++ [w]
    rw [List.map_map]
    exact map_fst_pair res _
  · show (((s.waiters ++ [w]).map fun v => (v, res)).map Prod.fst).count w = 1
    rw [List.map_map, map_fst_pair res, List.count_append,
      List.count_eq_zero.mpr h2]
    simp

/-- C9 witness: one waiter on a pending session, success then failure. -/
theorem ready_waiter_notified_exactly_once_witness :
    ((⟨TokenState.pending, []⟩ : AccountSession).tstate ≠ TokenState.ready) ∧
    (0 ∉ (⟨TokenState.pending, []⟩ : AccountSession).waiters) ∧
    ((ready 0 ⟨TokenState.pending, []⟩).2 = [] ∧
     (completeExchange none (ready 0 ⟨TokenState.pending, []⟩).1).2.map Prod.fst = [0] ∧
     ((completeExchange none (ready 0 ⟨TokenState.pending, []⟩).1).2.map Prod.fst).count 0
       = 1 ∧
     (completeExchange none (ready 0 ⟨TokenState.pending, []⟩).1).1.waiters = [] ∧
     ((completeExchange (some "boom")
         (completeExchange none (ready 0 ⟨TokenState.pending, []⟩).1).1).2.map
           Prod.fst).count 0 = 0) :=
  ⟨by decide, by decide,
   ready_waiter_notified_exactly_once ⟨TokenState.pending, []⟩ 0 none (some "boom")
     (by decide) (by decide)⟩

/-- Lookup after `Box.setTokens`, at the Box level. -/
theorem setTokens_lookup (b : Box) (email : String) (t : TokenBody) :
    (b.setTokens email t).connections.lookup email
      = (b.connections.lookup email).map fun c =>
          { c with access_token := some t.access_token,
                   refresh_token := some t.refresh_token } :=
  lookup_setTokens b.connections email t

/-- C10: the middleware callback returned by `authenticate` invokes `done`
exactly once with (null, profile), and afterwards the connection registered
under profile.login — created through `getConnection` when absent — holds the
two supplied tokens. -/
theorem authenticateCb_stores_tokens_done_once (b : Box) (atk rtk : String)
    (profile : Profile) :
    (authenticateCb b atk rtk profile).2 = [(none, profile)] ∧
    ((authenticateCb b atk rtk profile).1.connections.lookup profile.login).map
        (fun c => (c.access_token, c.refresh_token)) = some (some atk, some rtk) := by
  refine ⟨rfl, ?_⟩
  have hrepr : (authenticateCb b atk rtk profile).1
      = (b.getConnection profile.login).2.setTokens profile.login ⟨atk, rtk⟩ := rfl
  rw [hrepr, setTokens_lookup]
  cases h : b.connections.lookup profile.login with
  | some c0 =>
    rw [getConnection_of_lookup_some b profile.login c0 h]
    rw [h]
    rfl
  | none =>
    rw [getConnection_of_lookup_none b profile.login h]
    simp [List.lookup]

/-- C4 witness: one running server with one open socket. -/
theorem stopServer_running_closes_all_witness :
    (⟨some true, [⟨0, true⟩]⟩ : ListenerState).server = some true ∧
    ((stopServer ⟨some true, [⟨0, true⟩]⟩).1.server = some false ∧
     (stopServer ⟨some true, [⟨0, true⟩]⟩).2.head? = some StopEvent.closedServer ∧
     ((stopServer ⟨some true, [⟨0, true⟩]⟩).1.sockets.all fun s => !s.sockOpen) = true ∧
     (stopServer ⟨some true, [⟨0, true⟩]⟩).2.getLast? = some (StopEvent.calledBack none) ∧
     (stopServer ⟨some true, [⟨0, true⟩]⟩).2.count (StopEvent.calledBack none) = 1 ∧
     ((⟨some true, [⟨0, true⟩]⟩ : ListenerState).sockets.all fun s =>
       (stopServer ⟨some true, [⟨0, true⟩]⟩).2.contains
         (StopEvent.destroyedSocket s.sid)) = true) :=
  ⟨rfl, stopServer_running_closes_all ⟨some true, [⟨0, true⟩]⟩ true rfl⟩

end BoxSDK
